import Mathlib

/-!
Shallow embedding of the CCA Matcher backend (`app.py`): the normalization
helpers (`norm`, `safe_list`, `count_map_add`, `sort_dict`), the persisted
event row, the ingestion route `api_events`, the clear route
`api_clear_stats`, and the aggregation route `api_stats`.

JSON values are modelled by the inductive `JVal`; Python string primitives
(`str()`, `.strip()`, `.lower()`, `<` on strings) are modelled by executable
functions over the character list of a `String`, restricted to ASCII case
folding and ASCII whitespace, which matches the data this service handles.
The SQL row store is modelled as a `List Row`: insertion appends, the clear
operation empties the list, and aggregation consumes the list it is given
(the `ORDER BY ts DESC` of the scan is a property of the collaborator, so
theorems about scan-order sensitivity quantify over permutations).
-/

namespace CCAMatcher

/-- JSON values as produced by Python's `json` module: `null`, booleans,
(integer) numbers, strings, arrays and objects. Objects keep their key/value
pairs in order; lookup takes the last binding, as `json.loads` does for
duplicate keys. -/
inductive JVal : Type where
  | null : JVal
  | bool : Bool → JVal
  | num : Int → JVal
  | str : String → JVal
  | arr : List JVal → JVal
  | obj : List (String × JVal) → JVal

mutual

/-- Python `repr()` on JSON-decoded values (container elements are shown
with `repr`, which is what `str()` on a list or dict does). -/
def pyRepr : JVal → String
  | .null => "None"
  | .bool true => "True"
  | .bool false => "False"
  | .num n => toString n
  | .str s => "\x27" ++ s ++ "\x27"
  | .arr xs => "[" ++ pyReprElems xs ++ "]"
  | .obj fs => "\x7b" ++ pyReprFields fs ++ "\x7d"

/-- Comma-separated `repr` of the elements of a list. -/
def pyReprElems : List JVal → String
  | [] => ""
  | [v] => pyRepr v
  | v :: vs => pyRepr v ++ ", " ++ pyReprElems vs

/-- Comma-separated `repr` of the entries of a dict. -/
def pyReprFields : List (String × JVal) → String
  | [] => ""
  | [(k, v)] => "\x27" ++ k ++ "\x27: " ++ pyRepr v
  | (k, v) :: fs => "\x27" ++ k ++ "\x27: " ++ pyRepr v ++ ", " ++ pyReprFields fs

end

/-- Python `str()` on JSON-decoded values: a string is itself, anything else
is its `repr`. -/
def pyStr : JVal → String
  | .str s => s
  | v => pyRepr v

/-- ASCII whitespace stripped by Python's `str.strip()`. -/
def pyIsSpace (c : Char) : Bool :=
  c = ' ' || c = '\t' || c = '\n' || c = '\r' || c = '\x0b' || c = '\x0c'

/-- Python `str.strip()`: drop leading and trailing whitespace. -/
def pyStrip (s : String) : String :=
  ⟨((s.data.dropWhile pyIsSpace).reverse.dropWhile pyIsSpace).reverse⟩

/-- ASCII case folding of one character, as `str.lower()` does on ASCII. -/
def pyLowerChar (c : Char) : Char :=
  if 'A' ≤ c ∧ c ≤ 'Z' then Char.ofNat (c.toNat + 32) else c

/-- Python `str.lower()` (ASCII). -/
def pyLower (s : String) : String :=
  ⟨s.data.map pyLowerChar⟩

/-- Python `<` on strings: lexicographic comparison by code point. -/
def charListLt : List Char → List Char → Bool
  | [], [] => false
  | [], _ :: _ => true
  | _ :: _, [] => false
  | a :: as, b :: bs =>
    if a.toNat < b.toNat then true
    else if b.toNat < a.toNat then false
    else charListLt as bs

/-- `norm` applied to a present JSON value: `app.py` line 28,
`(str(x).strip()) if x is not None else ""`; a JSON `null` is Python `None`. -/
def normV : JVal → String
  | .null => ""
  | v => pyStrip (pyStr v)

/-- `norm(data.get(k))`: absent values normalize to the empty string. -/
def norm : Option JVal → String
  | none => ""
  | some v => normV v

/-- Python `data.get(k)` on a decoded JSON object: the last binding of `k`
(duplicate keys: last wins in `json.loads`), with a JSON `null` value giving
Python `None`, i.e. `Option.none`. -/
def pyGet (fs : List (String × JVal)) (k : String) : Option JVal :=
  match fs.reverse.find? (fun p => p.1 == k) with
  | some (_, JVal.null) => none
  | some (_, v) => some v
  | none => none

/-- `safe_list` (`app.py` line 31): a JSON array keeps its elements, any
other (or absent) value becomes the empty list. -/
def safe_list : Option JVal → List JVal
  | some (.arr xs) => xs
  | _ => []

/-- Python `s or None` on a string: the empty string becomes `None`. -/
def orNone (s : String) : Option String :=
  if s = "" then none else some s

/-- Python `x or d` on an optional string: `None` and `""` give `d`. -/
def pyOr (x : Option String) (d : String) : String :=
  match x with
  | none => d
  | some s => if s = "" then d else s

/-- A frequency map: Python dict from keys to counts, as an association list
in insertion order (new keys are appended at the end). -/
abbrev CountMap := List (String × Nat)

/-- The key actually used by `count_map_add` (`app.py` line 35):
`key if key and str(key).strip() else "(blank)"`. -/
def cmaKey : Option String → String
  | none => "(blank)"
  | some s => if s ≠ "" ∧ pyStrip s ≠ "" then s else "(blank)"

/-- Python `m[k] = m.get(k, 0) + 1`: increment in place, or append a fresh
binding at the end of the dict. -/
def bump (m : CountMap) (k : String) : CountMap :=
  match m with
  | [] => [(k, 1)]
  | (a, c) :: rest => if a = k then (a, c + 1) :: rest else (a, c) :: bump rest k

/-- `count_map_add` (`app.py` lines 34-36) with the default increment 1. -/
def count_map_add (m : CountMap) (key : Option String) : CountMap :=
  bump m (cmaKey key)

/-- The strict "comes before" order of `sort_dict`'s key function
`lambda kv: (-kv[1], kv[0].lower())`: larger count first, then
case-insensitively smaller key first. -/
def keyLt (a b : String × Nat) : Bool :=
  decide (b.2 < a.2) ||
    (a.2 == b.2 && charListLt (pyLower a.1).data (pyLower b.1).data)

/-- Insert one entry into an already sorted run, after every entry it does
not strictly precede (so entries arriving later stay after ties, matching
the stability of Python's `sorted`). -/
def insertSorted (x : String × Nat) : CountMap → CountMap
  | [] => [x]
  | y :: ys => if keyLt x y then x :: y :: ys else y :: insertSorted x ys

/-- `sort_dict` (`app.py` lines 38-39): stable sort of the dict items by
`(-count, key.lower())`. -/
def sort_dict (m : CountMap) : CountMap :=
  m.foldl (fun acc x => insertSorted x acc) []

/-- A nullable TEXT column holding serialized JSON: SQL `NULL`, text that
does not parse as JSON (which `json.loads` raises on), or text parsing to a
JSON value. -/
inductive StoredJson : Type where
  | sqlNull : StoredJson
  | malformed : String → StoredJson
  | val : JVal → StoredJson

/-- One row of the `events` table (`app.py` schema, lines 70-85). -/
structure Row : Type where
  ts : Int
  event_type : String
  category_selected : Option String
  activity_type_selected : Option String
  grade : Option String
  gender : Option String
  interests_json : StoredJson
  shown_ccas_json : StoredJson
  shortlisted_cca : Option String

/-- The outcome of `await request.json()` on the raw body: a parse failure,
or a decoded JSON value (possibly not an object). -/
inductive Body : Type where
  | parseError : Body
  | val : JVal → Body

/-- Lines 199-205: a body that fails to parse, or whose top-level value is
not a dict, degrades to the empty dict. -/
def bodyFields : Body → List (String × JVal)
  | .val (.obj fs) => fs
  | _ => []

/-- The HTTP-level outcome of `POST /api/events`. -/
inductive SubmitResult : Type where
  | err : Nat → Bool → String → SubmitResult
  | ok : Nat → SubmitResult
deriving DecidableEq

/-- The row built and inserted by `api_events` (`app.py` lines 214-224) once
the event type has been accepted. -/
def buildRow (data : List (String × JVal)) (ts : Int) (event_type : String) : Row :=
  { ts := ts
    event_type := event_type
    category_selected := orNone (norm (pyGet data "categorySelected"))
    activity_type_selected :=
      match pyGet data "activityTypeSelected" with
      | none => none
      | some v => some (normV v)
    grade :=
      match pyGet data "grade" with
      | none => none
      | some v => some (normV v)
    gender := orNone (norm (pyGet data "gender"))
    interests_json := .val (.arr ((safe_list (pyGet data "interests")).take 200))
    shown_ccas_json := .val (.arr ((safe_list (pyGet data "shownCCAs")).take 50))
    shortlisted_cca := orNone (norm (pyGet data "shortlistedCCA")) }

/-- `POST /api/events` (`app.py` lines 195-227) acting on the store: parse
the body (degrading to `\x7b\x7d`), validate `eventType`, and either reject with a
400 and an untouched store, or append the built row and answer with the
post-insert row count. -/
def api_events (b : Body) (ts : Int) (store : List Row) : SubmitResult × List Row :=
  let data := bodyFields b
  let event_type := norm (pyGet data "eventType")
  if event_type = "generate" ∨ event_type = "shortlist" then
    let store2 := store ++ [buildRow data ts event_type]
    (.ok store2.length, store2)
  else
    (.err 400 false "Invalid or missing eventType (use \x27generate\x27 or \x27shortlist\x27)", store)

/-- `clear_all_events` (`app.py` lines 165-186): delete every row, report
how many were deleted. -/
def clear_all_events (store : List Row) : Nat × List Row :=
  (store.length, [])

/-- The response of `DELETE /api/stats`. -/
structure ClearResp : Type where
  ok : Bool
  status : String
  deleted : Nat
deriving DecidableEq

/-- `DELETE /api/stats` (`app.py` lines 229-236). -/
def api_clear_stats (store : List Row) : ClearResp × List Row :=
  ({ ok := true, status := "cleared", deleted := (clear_all_events store).1 },
   (clear_all_events store).2)

/-- Python iteration over a decoded JSON value, as `for t in ints` does:
arrays yield their elements, strings their characters (as 1-character
strings), dicts their keys; numbers, booleans and `None` are not iterable
and raise a `TypeError`. -/
def pyIter : JVal → Option (List JVal)
  | .arr xs => some xs
  | .str s => some (s.data.map fun c => .str (String.singleton c))
  | .obj fs => some (fs.map fun p => .str p.1)
  | _ => none

/-- Lines 266-271: `json.loads(r.get("interests_json") or "[]")` guarded by
`try/except` (any parse failure, and a SQL `NULL`, give `[]`), followed by
iteration, which fails on a non-iterable parse result. -/
def loadInterests : StoredJson → Option (List JVal)
  | .sqlNull => some []
  | .malformed _ => some []
  | .val v => pyIter v

/-- Line 272: `tok = norm(t).lower()`. -/
def tokOf (t : JVal) : String :=
  pyLower (normV t)

/-- Lines 271-274: count one interest token, skipping empty ones. -/
def addInterest (m : CountMap) (t : JVal) : CountMap :=
  if tokOf t ≠ "" then count_map_add m (some (tokOf t)) else m

/-- The accumulator of the aggregation loop of `api_stats`
(`app.py` lines 245-253). -/
structure AggState : Type where
  categories : CountMap
  activity_types : CountMap
  grades : CountMap
  genders : CountMap
  interests : CountMap
  shortlisted : CountMap
  generate_events : Nat
  shortlist_events : Nat
deriving DecidableEq

/-- The empty accumulator. -/
def initAgg : AggState :=
  { categories := [], activity_types := [], grades := [], genders := []
    interests := [], shortlisted := [], generate_events := 0, shortlist_events := 0 }

/-- One iteration of the `for r in rows` loop of `api_stats`
(`app.py` lines 255-280). `none` models the loop raising (a `TypeError` on
`for t in ints` with a non-iterable decoded value), which aborts the whole
request. -/
def stepRow (st : AggState) (r : Row) : Option AggState :=
  if r.event_type = "generate" then
    match loadInterests r.interests_json with
    | none => none
    | some ints =>
      some { st with
        generate_events := st.generate_events + 1
        categories := count_map_add st.categories r.category_selected
        activity_types :=
          count_map_add st.activity_types (some (pyOr r.activity_type_selected "(n/a)"))
        grades := count_map_add st.grades r.grade
        genders := count_map_add st.genders (some (pyOr r.gender "Any"))
        interests := ints.foldl addInterest st.interests }
  else if r.event_type = "shortlist" then
    some { st with
      shortlist_events := st.shortlist_events + 1
      shortlisted :=
        match r.shortlisted_cca with
        | some s => if s ≠ "" then count_map_add st.shortlisted (some s) else st.shortlisted
        | none => st.shortlisted }
  else
    some st

/-- The aggregation loop over all fetched rows. -/
def statsLoop (st : AggState) : List Row → Option AggState
  | [] => some st
  | r :: rs =>
    match stepRow st r with
    | none => none
    | some st2 => statsLoop st2 rs

/-- The JSON body answered by `GET /api/stats` (`app.py` lines 282-293);
the constant `storage` tag is omitted. -/
structure Stats : Type where
  totalEvents : Nat
  generateEvents : Nat
  shortlistEvents : Nat
  categories : CountMap
  activityTypes : CountMap
  grades : CountMap
  genders : CountMap
  interests : CountMap
  shortlisted : CountMap
deriving DecidableEq

/-- The response shaping of `api_stats` (`app.py` lines 282-293): totals,
and every frequency map rendered through `sort_dict`. -/
def mkStats (rows : List Row) (st : AggState) : Stats :=
  { totalEvents := rows.length
    generateEvents := st.generate_events
    shortlistEvents := st.shortlist_events
    categories := sort_dict st.categories
    activityTypes := sort_dict st.activity_types
    grades := sort_dict st.grades
    genders := sort_dict st.genders
    interests := sort_dict st.interests
    shortlisted := sort_dict st.shortlisted }

/-- `GET /api/stats` (`app.py` lines 238-293) on the fetched rows: `none`
models the request failing with a 500 because the aggregation loop raised. -/
def api_stats (rows : List Row) : Option Stats :=
  match statsLoop initAgg rows with
  | none => none
  | some st => some (mkStats rows st)

/-!
Observation helpers: reading counts back out of a frequency map, and the
length of a serialized list column. These are measurement functions used in
statements, not part of the embedded program.
-/

/-- Total count recorded for key `k` in a frequency map. -/
def lookupC (m : CountMap) (k : String) : Nat :=
  ((m.filter fun p => p.1 == k).map Prod.snd).sum

/-- Sum of all counts of a frequency map. -/
def sumCounts (m : CountMap) : Nat :=
  (m.map Prod.snd).sum

/-- Length of the list stored in a serialized-JSON column. -/
def storedLen : StoredJson → Nat
  | .val (.arr l) => l.length
  | _ => 0

/-- Folding `bump` over a list of keys. -/
def bumpList (m : CountMap) (ks : List String) : CountMap :=
  ks.foldl bump m

/-- The non-strict counterpart of `keyLt`: `a` may legitimately stand
directly before `b` in `sort_dict`'s output. -/
def leKey (a b : String × Nat) : Prop := keyLt b a = false


/-!
A total description of one aggregation step. `stepRow` succeeds exactly on
rows satisfying `rowOk`, and then acts like the total function `pureStep`;
each frequency map of `pureStep` is `bumpList` over a per-row key list.
-/

/-- A stored row the aggregation loop can consume without raising: a
Generate row needs a decodable-and-iterable `interests_json`. -/
def rowOk (r : Row) : Prop :=
  r.event_type = "generate" → (loadInterests r.interests_json).isSome = true

instance (r : Row) : Decidable (rowOk r) := by
  unfold rowOk
  infer_instance

/-- The aggregation step as a total function (meaningful on `rowOk` rows,
where it agrees with `stepRow`). -/
def pureStep (st : AggState) (r : Row) : AggState :=
  if r.event_type = "generate" then
    { st with
      generate_events := st.generate_events + 1
      categories := count_map_add st.categories r.category_selected
      activity_types :=
        count_map_add st.activity_types (some (pyOr r.activity_type_selected "(n/a)"))
      grades := count_map_add st.grades r.grade
      genders := count_map_add st.genders (some (pyOr r.gender "Any"))
      interests := ((loadInterests r.interests_json).getD []).foldl addInterest st.interests }
  else if r.event_type = "shortlist" then
    { st with
      shortlist_events := st.shortlist_events + 1
      shortlisted :=
        match r.shortlisted_cca with
        | some s => if s ≠ "" then count_map_add st.shortlisted (some s) else st.shortlisted
        | none => st.shortlisted }
  else
    st

/-- The whole aggregation loop as a total function. -/
def runRows (st : AggState) (rows : List Row) : AggState :=
  rows.foldl pureStep st

/-- Keys a row contributes to the `categories` map. -/
def catKeys (r : Row) : List String :=
  if r.event_type = "generate" then [cmaKey r.category_selected] else []

/-- Keys a row contributes to the `activity_types` map. -/
def actKeys (r : Row) : List String :=
  if r.event_type = "generate" then
    [cmaKey (some (pyOr r.activity_type_selected "(n/a)"))]
  else []

/-- Keys a row contributes to the `grades` map. -/
def gradeKeys (r : Row) : List String :=
  if r.event_type = "generate" then [cmaKey r.grade] else []

/-- Keys a row contributes to the `genders` map. -/
def genderKeys (r : Row) : List String :=
  if r.event_type = "generate" then [cmaKey (some (pyOr r.gender "Any"))] else []

/-- Keys a row contributes to the `interests` map: its decoded tokens,
lower-cased, with empty tokens dropped. -/
def intKeys (r : Row) : List String :=
  if r.event_type = "generate" then
    ((((loadInterests r.interests_json).getD []).map tokOf).filter
      fun t => t ≠ "").map fun t => cmaKey (some t)
  else []

/-- Keys a row contributes to the `shortlisted` map. -/
def shortKeys (r : Row) : List String :=
  if r.event_type = "generate" then []
  else if r.event_type = "shortlist" then
    match r.shortlisted_cca with
    | some s => if s ≠ "" then [cmaKey (some s)] else []
    | none => []
  else []

/-- Contribution of a row to `generate_events`. -/
def genW (r : Row) : Nat :=
  if r.event_type = "generate" then 1 else 0

/-- Contribution of a row to `shortlist_events`. -/
def shortW (r : Row) : Nat :=
  if r.event_type = "generate" then 0
  else if r.event_type = "shortlist" then 1 else 0

/-!
Concrete payloads, rows and expected outputs used by scenario and
counterexample theorems.
-/

/-- The C3 scenario payload. -/
def bodySports : Body :=
  .val (.obj [("eventType", .str "generate"), ("categorySelected", .str "Sports"),
    ("gender", .str "F")])

/-- A Generate payload whose `grade` is a whitespace-only string. -/
def bodyBlankGrade : Body :=
  .val (.obj [("eventType", .str "generate"), ("grade", .str " ")])

/-- A Generate payload whose `activityTypeSelected` is a whitespace-only
string. -/
def bodyBlankAct : Body :=
  .val (.obj [("eventType", .str "generate"), ("activityTypeSelected", .str " ")])

/-- A payload whose raw `eventType` value is `" generate "`, a string other
than `"generate"` and `"shortlist"`. -/
def bodyPadded : Body := .val (.obj [("eventType", .str " generate ")])

/-- A payload with an unknown `eventType`. -/
def bodyBogus : Body := .val (.obj [("eventType", .str "browse")])

/-- The C6 scenario payload. -/
def bodyShortlist : Body :=
  .val (.obj [("eventType", .str "shortlist"), ("shortlistedCCA", .str "Chess Club")])

/-- A Generate payload carrying 250 interests. -/
def body250 : Body :=
  .val (.obj [("eventType", .str "generate"),
    ("interests", .arr (List.replicate 250 (.str "hobby")))])

/-- A stored Generate row with category `"A"`. -/
def rowGenA : Row :=
  { ts := 0, event_type := "generate", category_selected := some "A",
    activity_type_selected := none, grade := none, gender := none,
    interests_json := .val (.arr []), shown_ccas_json := .val (.arr []),
    shortlisted_cca := none }

/-- The same row with category `"a"` (same timestamp as `rowGenA`). -/
def rowGena : Row := { rowGenA with category_selected := some "a" }

/-- A stored row whose `interests_json` column holds the text `"5"`: valid
JSON, but its decoded value is not iterable. -/
def rowNumInts : Row := { rowGenA with interests_json := .val (.num 5) }

/-- A stored row with an event type that is neither kind. -/
def rowUnknown : Row := { rowGenA with event_type := "pageview" }

/-- A Shortlist row with no shortlisted item. -/
def rowShortNone : Row := { rowGenA with event_type := "shortlist" }

/-- The aggregation state after consuming `rowGenA`. -/
def stRowGenA : AggState :=
  { categories := [("A", 1)], activity_types := [("(n/a)", 1)], grades := [("(blank)", 1)],
    genders := [("Any", 1)], interests := [], shortlisted := [],
    generate_events := 1, shortlist_events := 0 }

/-- The stats answered after submitting `bodySports` into an empty store. -/
def statsSports : Stats :=
  { totalEvents := 1, generateEvents := 1, shortlistEvents := 0,
    categories := [("Sports", 1)], activityTypes := [("(n/a)", 1)],
    grades := [("(blank)", 1)], genders := [("F", 1)],
    interests := [], shortlisted := [] }

/-- The stats over the store `[rowGenA, rowGena]` in that scan order. -/
def statsAa : Stats :=
  { totalEvents := 2, generateEvents := 2, shortlistEvents := 0,
    categories := [("A", 1), ("a", 1)], activityTypes := [("(n/a)", 2)],
    grades := [("(blank)", 2)], genders := [("Any", 2)],
    interests := [], shortlisted := [] }

/-- The stats over the same two rows in the opposite scan order. -/
def statsaA : Stats :=
  { statsAa with categories := [("a", 1), ("A", 1)] }

/-!
Ordering facts about `charListLt` and `keyLt`, and the shape of
`sort_dict`'s output.
-/

theorem charListLt_asymm : ∀ {as bs : List Char},
    charListLt as bs = true → charListLt bs as = false := by
  intro as
  induction as with
  | nil =>
    intro bs h
    cases bs with
    | nil => simp [charListLt] at h
    | cons b bs => simp [charListLt]
  | cons a as ih =>
    intro bs h
    cases bs with
    | nil => simp [charListLt] at h
    | cons b bs =>
      simp only [charListLt] at h ⊢
      by_cases h1 : a.toNat < b.toNat
      · have h2 : ¬ b.toNat < a.toNat := by omega
        simp [h1, h2]
      · by_cases h2 : b.toNat < a.toNat
        · simp [h1, h2] at h
        · simp only [if_neg h1, if_neg h2] at h ⊢
          exact ih h

theorem charListLt_dichotomy : ∀ {as bs : List Char},
    charListLt as bs = false → charListLt bs as = true ∨ as = bs := by
  intro as
  induction as with
  | nil =>
    intro bs h
    cases bs with
    | nil => right; rfl
    | cons b bs => simp [charListLt] at h
  | cons a as ih =>
    intro bs h
    cases bs with
    | nil => left; simp [charListLt]
    | cons b bs =>
      simp only [charListLt] at h ⊢
      by_cases h1 : a.toNat < b.toNat
      · simp [h1] at h
      · by_cases h2 : b.toNat < a.toNat
        · left; simp [h2]
        · have hn : a.toNat = b.toNat := by omega
          have hab : a = b := Char.ext (UInt32.toNat.inj hn)
          simp only [if_neg h1, if_neg h2] at h
          simp only [if_neg h2, if_neg h1]
          rcases ih h with h3 | h3
          · left; exact h3
          · right; rw [hab, h3]

theorem keyLt_asymm {a b : String × Nat} (h : keyLt a b = true) : keyLt b a = false := by
  simp only [keyLt, Bool.or_eq_true, Bool.and_eq_true, decide_eq_true_eq,
    beq_iff_eq] at h
  simp only [keyLt, Bool.or_eq_false_iff, Bool.and_eq_false_iff,
    decide_eq_false_iff_not]
  rcases h with h | ⟨h1, h2⟩
  · constructor
    · omega
    · left; simp only [beq_eq_false_iff_ne, ne_eq]; omega
  · constructor
    · omega
    · right; exact charListLt_asymm h2

theorem chain_insertSorted {x : String × Nat} :
    ∀ {l : CountMap}, List.Chain' leKey l → List.Chain' leKey (insertSorted x l) := by
  intro l
  induction l with
  | nil => intro _; simp [insertSorted]
  | cons y ys ih =>
    intro h
    rw [insertSorted]
    by_cases hxy : keyLt x y = true
    · simp only [hxy, if_true]
      exact List.Chain'.cons (keyLt_asymm hxy) h
    · simp only [if_neg hxy]
      have hys := List.Chain'.tail h
      apply List.chain'_cons'.mpr
      refine ⟨?_, ih hys⟩
      intro z hz
      cases ys with
      | nil =>
        simp [insertSorted] at hz
        subst hz
        exact Bool.eq_false_iff.mpr (fun hc => hxy hc)
      | cons w ws =>
        rw [insertSorted] at hz
        by_cases hxw : keyLt x w = true
        · simp only [hxw, if_true, List.head?_cons, Option.mem_def,
            Option.some.injEq] at hz
          subst hz
          exact Bool.eq_false_iff.mpr (fun hc => hxy hc)
        · simp only [if_neg hxw, List.head?_cons, Option.mem_def,
            Option.some.injEq] at hz
          subst hz
          exact (List.chain'_cons.mp h).1

theorem chain_sort_dict (m : CountMap) : List.Chain' leKey (sort_dict m) := by
  suffices h : ∀ (l acc : CountMap), List.Chain' leKey acc →
      List.Chain' leKey (l.foldl (fun acc x => insertSorted x acc) acc) by
    exact h m [] (by simp)
  intro l
  induction l with
  | nil => intro acc hacc; exact hacc
  | cons x xs ih => intro acc hacc; exact ih _ (chain_insertSorted hacc)

theorem insertSorted_perm (x : String × Nat) :
    ∀ l : CountMap, (insertSorted x l).Perm (x :: l) := by
  intro l
  induction l with
  | nil => simp [insertSorted]
  | cons y ys ih =>
    rw [insertSorted]
    by_cases hxy : keyLt x y = true
    · simp [hxy]
    · simp only [if_neg hxy]
      exact (ih.cons y).trans (List.Perm.swap x y ys)

theorem sort_dict_perm (m : CountMap) : (sort_dict m).Perm m := by
  suffices h : ∀ (l acc : CountMap),
      (l.foldl (fun acc x => insertSorted x acc) acc).Perm (acc ++ l) by
    simpa using h m []
  intro l
  induction l with
  | nil => intro acc; simp
  | cons x xs ih =>
    intro acc
    have h1 := ih (insertSorted x acc)
    have h2 : ((insertSorted x acc) ++ xs).Perm ((x :: acc) ++ xs) :=
      (insertSorted_perm x acc).append_right xs
    have h3 : (x :: (acc ++ xs)).Perm (acc ++ x :: xs) := List.perm_middle.symm
    exact (h1.trans h2).trans h3

/-!
Counting facts: how `bump` and `bumpList` move `lookupC` and `sumCounts`,
and their invariance under permutation.
-/

theorem lookupC_perm {m m2 : CountMap} (h : m.Perm m2) (k : String) :
    lookupC m k = lookupC m2 k :=
  ((h.filter _).map _).sum_eq

theorem sumCounts_perm {m m2 : CountMap} (h : m.Perm m2) :
    sumCounts m = sumCounts m2 :=
  (h.map _).sum_eq

theorem lookupC_nil (k : String) : lookupC [] k = 0 := rfl

theorem lookupC_cons (a : String) (c : Nat) (m : CountMap) (k : String) :
    lookupC ((a, c) :: m) k = (if a = k then c else 0) + lookupC m k := by
  by_cases h : a = k
  · subst h
    simp [lookupC, List.filter_cons]
  · have hb : (a == k) = false := by simp [h]
    simp [lookupC, List.filter_cons, hb, h]

theorem sumCounts_cons (a : String) (c : Nat) (m : CountMap) :
    sumCounts ((a, c) :: m) = c + sumCounts m := by
  simp [sumCounts]

theorem lookupC_bump_self (m : CountMap) (k : String) :
    lookupC (bump m k) k = lookupC m k + 1 := by
  induction m with
  | nil => simp [bump, lookupC_cons, lookupC_nil]
  | cons p m ih =>
    obtain ⟨a, c⟩ := p
    rw [bump]
    by_cases ha : a = k
    · subst ha
      simp [lookupC_cons]
      omega
    · simp only [if_neg ha, lookupC_cons, ha, if_false]
      omega

theorem lookupC_bump_ne (m : CountMap) {k2 k : String} (h : k2 ≠ k) :
    lookupC (bump m k2) k = lookupC m k := by
  induction m with
  | nil => simp [bump, lookupC_cons, lookupC_nil, h]
  | cons p m ih =>
    obtain ⟨a, c⟩ := p
    rw [bump]
    by_cases ha : a = k2
    · subst ha
      simp [lookupC_cons, h]
    · simp only [if_neg ha, lookupC_cons]
      omega

theorem sumCounts_bump (m : CountMap) (k : String) :
    sumCounts (bump m k) = sumCounts m + 1 := by
  induction m with
  | nil => simp [bump, sumCounts]
  | cons p m ih =>
    obtain ⟨a, c⟩ := p
    rw [bump]
    by_cases ha : a = k
    · simp [ha, sumCounts_cons]
      omega
    · simp only [if_neg ha, sumCounts_cons]
      omega

theorem bumpList_append (m : CountMap) (ks1 ks2 : List String) :
    bumpList m (ks1 ++ ks2) = bumpList (bumpList m ks1) ks2 := by
  simp [bumpList, List.foldl_append]

theorem lookupC_bumpList (m : CountMap) (ks : List String) (k : String) :
    lookupC (bumpList m ks) k = lookupC m k + ks.count k := by
  induction ks generalizing m with
  | nil => simp [bumpList]
  | cons k2 ks ih =>
    simp only [bumpList, List.foldl_cons] at *
    rw [ih (bump m k2), List.count_cons]
    by_cases h : k2 = k
    · subst h
      rw [lookupC_bump_self]
      simp
      omega
    · have hb : (k2 == k) = false := by simp [h]
      rw [lookupC_bump_ne m h]
      simp [hb]

theorem sumCounts_bumpList (m : CountMap) (ks : List String) :
    sumCounts (bumpList m ks) = sumCounts m + ks.length := by
  induction ks generalizing m with
  | nil => simp [bumpList]
  | cons k2 ks ih =>
    simp only [bumpList, List.foldl_cons, List.length_cons] at *
    rw [ih (bump m k2), sumCounts_bump]
    omega

theorem flatMap_count (f : Row → List String) (k : String) :
    ∀ rows : List Row, (rows.flatMap f).count k = (rows.map fun r => (f r).count k).sum := by
  intro rows
  induction rows with
  | nil => simp
  | cons r rs ih => simp [List.flatMap_cons, List.count_append, ih]

theorem flatMap_length (f : Row → List String) :
    ∀ rows : List Row, (rows.flatMap f).length = (rows.map fun r => (f r).length).sum := by
  intro rows
  induction rows with
  | nil => simp
  | cons r rs ih => simp [List.flatMap_cons, ih]

theorem foldl_addInterest (ints : List JVal) (m : CountMap) :
    ints.foldl addInterest m =
      bumpList m (((ints.map tokOf).filter fun t => t ≠ "").map fun t => cmaKey (some t)) := by
  induction ints generalizing m with
  | nil => simp [bumpList]
  | cons t ts ih =>
    by_cases h : tokOf t = ""
    · simp [addInterest, h, ih]
    · simp [addInterest, h, ih, bumpList, count_map_add]

theorem stepRow_some_iff {st : AggState} {r : Row} {st2 : AggState} :
    stepRow st r = some st2 ↔ rowOk r ∧ st2 = pureStep st r := by
  unfold stepRow pureStep rowOk
  by_cases hg : r.event_type = "generate"
  · simp only [if_pos hg]
    cases h : loadInterests r.interests_json with
    | none =>
      simp [h]
      intro hng
      exact absurd hg hng
    | some ints =>
      simp only [h, Option.getD_some, Option.isSome_some, Option.some.injEq]
      constructor
      · intro h2
        exact ⟨fun _ => trivial, h2.symm⟩
      · rintro ⟨-, h2⟩
        exact h2.symm
  · by_cases hs : r.event_type = "shortlist"
    · simp only [if_neg hg, if_pos hs, Option.some.injEq]
      constructor
      · intro h2
        exact ⟨fun hgen => absurd hgen hg, h2.symm⟩
      · rintro ⟨-, h2⟩
        exact h2.symm
    · simp only [if_neg hg, if_neg hs, Option.some.injEq]
      constructor
      · intro h2
        exact ⟨fun hgen => absurd hgen hg, h2.symm⟩
      · rintro ⟨-, h2⟩
        exact h2.symm

theorem statsLoop_some_iff :
    ∀ (rows : List Row) (st st2 : AggState),
      statsLoop st rows = some st2 ↔ ((∀ r ∈ rows, rowOk r) ∧ st2 = runRows st rows) := by
  intro rows
  induction rows with
  | nil => intro st st2; simp [statsLoop, runRows, eq_comm]
  | cons r rs ih =>
    intro st st2
    rw [statsLoop]
    cases h : stepRow st r with
    | none =>
      constructor
      · intro hc
        exact Option.noConfusion hc
      · rintro ⟨hok, -⟩
        have h3 : stepRow st r = some (pureStep st r) :=
          stepRow_some_iff.mpr ⟨hok r (List.mem_cons_self r rs), rfl⟩
        rw [h] at h3
        exact Option.noConfusion h3
    | some stm =>
      have hm := stepRow_some_iff.mp h
      rw [ih]
      constructor
      · rintro ⟨hall, hrun⟩
        refine ⟨?_, ?_⟩
        · intro r2 hr2
          rcases List.mem_cons.mp hr2 with h2 | h2
          · subst h2; exact hm.1
          · exact hall r2 h2
        · rw [hrun]
          simp only [runRows, List.foldl_cons]
          rw [hm.2]
      · rintro ⟨hall, hrun⟩
        refine ⟨fun r2 hr2 => hall r2 (List.mem_cons_of_mem r hr2), ?_⟩
        rw [hrun]
        simp only [runRows, List.foldl_cons]
        rw [hm.2]

theorem api_stats_some_iff {rows : List Row} {s : Stats} :
    api_stats rows = some s ↔
      ((∀ r ∈ rows, rowOk r) ∧ s = mkStats rows (runRows initAgg rows)) := by
  unfold api_stats
  cases h : statsLoop initAgg rows with
  | none =>
    constructor
    · intro hc
      exact Option.noConfusion hc
    · rintro ⟨hok, -⟩
      have h2 := (statsLoop_some_iff rows initAgg (runRows initAgg rows)).mpr ⟨hok, rfl⟩
      rw [h] at h2
      exact Option.noConfusion h2
  | some st =>
    have hm := (statsLoop_some_iff rows initAgg st).mp h
    simp only [Option.some.injEq]
    constructor
    · intro hmk
      exact ⟨hm.1, by rw [← hmk, hm.2]⟩
    · rintro ⟨-, hmk⟩
      rw [hmk, hm.2]

theorem runRows_proj (proj : AggState → CountMap) (keysOf : Row → List String)
    (hstep : ∀ st r, proj (pureStep st r) = bumpList (proj st) (keysOf r)) :
    ∀ (rows : List Row) (st : AggState),
      proj (runRows st rows) = bumpList (proj st) (rows.flatMap keysOf) := by
  intro rows
  induction rows with
  | nil => intro st; simp [runRows, bumpList]
  | cons r rs ih =>
    intro st
    rw [runRows, List.foldl_cons, List.flatMap_cons, bumpList_append, ← hstep st r]
    exact ih (pureStep st r)

/-- Each counter projection of `runRows` is the sum of per-row weights. -/
theorem runRows_counter (proj : AggState → Nat) (w : Row → Nat)
    (hstep : ∀ st r, proj (pureStep st r) = proj st + w r) :
    ∀ (rows : List Row) (st : AggState),
      proj (runRows st rows) = proj st + (rows.map w).sum := by
  intro rows
  induction rows with
  | nil => intro st; simp [runRows]
  | cons r rs ih =>
    intro st
    rw [runRows, List.foldl_cons, List.map_cons, List.sum_cons]
    have := ih (pureStep st r)
    rw [runRows] at this
    rw [this, hstep st r]
    omega

theorem pureStep_categories (st : AggState) (r : Row) :
    (pureStep st r).categories = bumpList st.categories (catKeys r) := by
  unfold pureStep catKeys
  split_ifs with h1 h2 <;> simp [count_map_add, bumpList]

theorem pureStep_activity_types (st : AggState) (r : Row) :
    (pureStep st r).activity_types = bumpList st.activity_types (actKeys r) := by
  unfold pureStep actKeys
  split_ifs with h1 h2 <;> simp [count_map_add, bumpList]

theorem pureStep_grades (st : AggState) (r : Row) :
    (pureStep st r).grades = bumpList st.grades (gradeKeys r) := by
  unfold pureStep gradeKeys
  split_ifs with h1 h2 <;> simp [count_map_add, bumpList]

theorem pureStep_genders (st : AggState) (r : Row) :
    (pureStep st r).genders = bumpList st.genders (genderKeys r) := by
  unfold pureStep genderKeys
  split_ifs with h1 h2 <;> simp [count_map_add, bumpList]

theorem pureStep_interests (st : AggState) (r : Row) :
    (pureStep st r).interests = bumpList st.interests (intKeys r) := by
  unfold pureStep intKeys
  split_ifs with h1 h2 <;> simp [foldl_addInterest, bumpList]

theorem pureStep_shortlisted (st : AggState) (r : Row) :
    (pureStep st r).shortlisted = bumpList st.shortlisted (shortKeys r) := by
  unfold pureStep shortKeys
  split_ifs with h1 h2
  · simp [bumpList]
  · cases h : r.shortlisted_cca with
    | none => simp [bumpList]
    | some sc =>
      by_cases he : sc = ""
      · simp [he, bumpList]
      · simp [he, bumpList, count_map_add]
  · simp [bumpList]

theorem pureStep_generate_events (st : AggState) (r : Row) :
    (pureStep st r).generate_events = st.generate_events + genW r := by
  unfold pureStep genW
  split_ifs with h1 h2 <;> simp

theorem pureStep_shortlist_events (st : AggState) (r : Row) :
    (pureStep st r).shortlist_events = st.shortlist_events + shortW r := by
  unfold pureStep shortW
  split_ifs with h1 h2 <;> simp

/-!
Bridges from the loop characterization to the rendered output.
-/

theorem sum_map_congr {α : Type} (f g : α → Nat) (h : ∀ x, f x = g x) (l : List α) :
    (l.map f).sum = (l.map g).sum := by
  rw [funext h]

theorem lookupC_sorted_runRows (proj : AggState → CountMap) (keysOf : Row → List String)
    (hstep : ∀ st r, proj (pureStep st r) = bumpList (proj st) (keysOf r))
    (hinit : proj initAgg = []) (rows : List Row) (k : String) :
    lookupC (sort_dict (proj (runRows initAgg rows))) k =
      (rows.map fun r => (keysOf r).count k).sum := by
  rw [lookupC_perm (sort_dict_perm _) k, runRows_proj proj keysOf hstep rows initAgg,
    hinit, lookupC_bumpList, flatMap_count, lookupC_nil]
  omega

theorem sumCounts_sorted_runRows (proj : AggState → CountMap) (keysOf : Row → List String)
    (hstep : ∀ st r, proj (pureStep st r) = bumpList (proj st) (keysOf r))
    (hinit : proj initAgg = []) (rows : List Row) :
    sumCounts (sort_dict (proj (runRows initAgg rows))) =
      (rows.map fun r => (keysOf r).length).sum := by
  rw [sumCounts_perm (sort_dict_perm _), runRows_proj proj keysOf hstep rows initAgg,
    hinit, sumCounts_bumpList, flatMap_length]
  simp [sumCounts]

theorem catKeys_length (r : Row) : (catKeys r).length = genW r := by
  unfold catKeys genW
  split_ifs <;> rfl

theorem actKeys_length (r : Row) : (actKeys r).length = genW r := by
  unfold actKeys genW
  split_ifs <;> rfl

theorem gradeKeys_length (r : Row) : (gradeKeys r).length = genW r := by
  unfold gradeKeys genW
  split_ifs <;> rfl

theorem genderKeys_length (r : Row) : (genderKeys r).length = genW r := by
  unfold genderKeys genW
  split_ifs <;> rfl

/-!
Claim theorems.
-/

/-- C4: for every frequency map, the sequence rendered by `sort_dict` is
sorted so that every adjacent pair `(a, b)` has `count a > count b`, or
equal counts and `key a ≤ key b` compared case-insensitively (strictly
below, or equal after lower-casing). -/
theorem C4_sort_law (m : CountMap) :
    (sort_dict m).Chain' (fun a b =>
      b.2 < a.2 ∨ (a.2 = b.2 ∧
        (charListLt (pyLower a.1).data (pyLower b.1).data = true ∨
          pyLower a.1 = pyLower b.1))) := by
  have h := chain_sort_dict m
  refine List.Chain'.imp ?_ h
  intro a b hab
  have hab3 : ¬ keyLt b a = true := by
    unfold leKey at hab
    simp [hab]
  simp only [keyLt, Bool.or_eq_true, Bool.and_eq_true, decide_eq_true_eq,
    beq_iff_eq, not_or, not_and] at hab3
  obtain ⟨h1, h2⟩ := hab3
  by_cases hc : a.2 = b.2
  · refine Or.inr ⟨hc, ?_⟩
    have hlt : charListLt (pyLower b.1).data (pyLower a.1).data = false := by
      cases hv : charListLt (pyLower b.1).data (pyLower a.1).data
      · rfl
      · exact absurd hv (h2 hc.symm)
    rcases charListLt_dichotomy hlt with h3 | h3
    · exact Or.inl h3
    · exact Or.inr (congrArg String.mk h3).symm
  · exact Or.inl (by omega)

/-- C9: in the output of `api_stats`, every Generate event contributes
exactly one increment to each of the categories, activityTypes, grades and
genders distributions, so each of those four distributions sums to the
reported `generateEvents` count. -/
theorem C9_distribution_sums (rows : List Row) (s : Stats)
    (h : api_stats rows = some s) :
    sumCounts s.categories = s.generateEvents ∧
    sumCounts s.activityTypes = s.generateEvents ∧
    sumCounts s.grades = s.generateEvents ∧
    sumCounts s.genders = s.generateEvents := by
  obtain ⟨-, hs⟩ := api_stats_some_iff.mp h
  subst hs
  have hg : (mkStats rows (runRows initAgg rows)).generateEvents = (rows.map genW).sum := by
    show (runRows initAgg rows).generate_events = _
    rw [runRows_counter (fun st => st.generate_events) genW pureStep_generate_events rows initAgg]
    simp [initAgg]
  refine ⟨?_, ?_, ?_, ?_⟩
  · show sumCounts (sort_dict (runRows initAgg rows).categories) = _
    rw [hg, sumCounts_sorted_runRows (fun st => st.categories) catKeys pureStep_categories rfl rows]
    exact sum_map_congr _ _ catKeys_length rows
  · show sumCounts (sort_dict (runRows initAgg rows).activity_types) = _
    rw [hg, sumCounts_sorted_runRows (fun st => st.activity_types) actKeys pureStep_activity_types rfl rows]
    exact sum_map_congr _ _ actKeys_length rows
  · show sumCounts (sort_dict (runRows initAgg rows).grades) = _
    rw [hg, sumCounts_sorted_runRows (fun st => st.grades) gradeKeys pureStep_grades rfl rows]
    exact sum_map_congr _ _ gradeKeys_length rows
  · show sumCounts (sort_dict (runRows initAgg rows).genders) = _
    rw [hg, sumCounts_sorted_runRows (fun st => st.genders) genderKeys pureStep_genders rfl rows]
    exact sum_map_congr _ _ genderKeys_length rows

/-- Witness for C9 at the store produced by one Generate submission. -/
theorem C9_distribution_sums_witness :
    sumCounts statsSports.categories = statsSports.generateEvents ∧
    sumCounts statsSports.activityTypes = statsSports.generateEvents ∧
    sumCounts statsSports.grades = statsSports.generateEvents ∧
    sumCounts statsSports.genders = statsSports.generateEvents :=
  C9_distribution_sums (api_events bodySports 0 []).2 statsSports (by decide)

/-- C8 (amended): `computeStats` is a pure function of the returned row
sequence, and every numeric output — `totalEvents`, `generateEvents`,
`shortlistEvents`, and the count recorded under any key of any of the six
distributions — is independent of the order in which the store returns the
rows. (Only the rendered order of entries that tie on count and
case-insensitive key can differ between two scan orders; see the
counterexample.) -/
theorem C8_order_independent_counts (rows1 rows2 : List Row) (s1 s2 : Stats) (k : String)
    (hp : rows1.Perm rows2)
    (h1 : api_stats rows1 = some s1) (h2 : api_stats rows2 = some s2) :
    s1.totalEvents = s2.totalEvents ∧
    s1.generateEvents = s2.generateEvents ∧
    s1.shortlistEvents = s2.shortlistEvents ∧
    lookupC s1.categories k = lookupC s2.categories k ∧
    lookupC s1.activityTypes k = lookupC s2.activityTypes k ∧
    lookupC s1.grades k = lookupC s2.grades k ∧
    lookupC s1.genders k = lookupC s2.genders k ∧
    lookupC s1.interests k = lookupC s2.interests k ∧
    lookupC s1.shortlisted k = lookupC s2.shortlisted k := by
  obtain ⟨-, hs1⟩ := api_stats_some_iff.mp h1
  obtain ⟨-, hs2⟩ := api_stats_some_iff.mp h2
  subst hs1
  subst hs2
  refine ⟨hp.length_eq, ?_, ?_, ?_, ?_, ?_, ?_, ?_, ?_⟩
  · show (runRows initAgg rows1).generate_events = (runRows initAgg rows2).generate_events
    rw [runRows_counter (fun st => st.generate_events) genW pureStep_generate_events rows1 initAgg,
      runRows_counter (fun st => st.generate_events) genW pureStep_generate_events rows2 initAgg,
      (hp.map genW).sum_eq]
  · show (runRows initAgg rows1).shortlist_events = (runRows initAgg rows2).shortlist_events
    rw [runRows_counter (fun st => st.shortlist_events) shortW pureStep_shortlist_events rows1 initAgg,
      runRows_counter (fun st => st.shortlist_events) shortW pureStep_shortlist_events rows2 initAgg,
      (hp.map shortW).sum_eq]
  · show lookupC (sort_dict (runRows initAgg rows1).categories) k =
      lookupC (sort_dict (runRows initAgg rows2).categories) k
    rw [lookupC_sorted_runRows (fun st => st.categories) catKeys pureStep_categories rfl rows1 k,
      lookupC_sorted_runRows (fun st => st.categories) catKeys pureStep_categories rfl rows2 k]
    exact (hp.map _).sum_eq
  · show lookupC (sort_dict (runRows initAgg rows1).activity_types) k =
      lookupC (sort_dict (runRows initAgg rows2).activity_types) k
    rw [lookupC_sorted_runRows (fun st => st.activity_types) actKeys pureStep_activity_types rfl rows1 k,
      lookupC_sorted_runRows (fun st => st.activity_types) actKeys pureStep_activity_types rfl rows2 k]
    exact (hp.map _).sum_eq
  · show lookupC (sort_dict (runRows initAgg rows1).grades) k =
      lookupC (sort_dict (runRows initAgg rows2).grades) k
    rw [lookupC_sorted_runRows (fun st => st.grades) gradeKeys pureStep_grades rfl rows1 k,
      lookupC_sorted_runRows (fun st => st.grades) gradeKeys pureStep_grades rfl rows2 k]
    exact (hp.map _).sum_eq
  · show lookupC (sort_dict (runRows initAgg rows1).genders) k =
      lookupC (sort_dict (runRows initAgg rows2).genders) k
    rw [lookupC_sorted_runRows (fun st => st.genders) genderKeys pureStep_genders rfl rows1 k,
      lookupC_sorted_runRows (fun st => st.genders) genderKeys pureStep_genders rfl rows2 k]
    exact (hp.map _).sum_eq
  · show lookupC (sort_dict (runRows initAgg rows1).interests) k =
      lookupC (sort_dict (runRows initAgg rows2).interests) k
    rw [lookupC_sorted_runRows (fun st => st.interests) intKeys pureStep_interests rfl rows1 k,
      lookupC_sorted_runRows (fun st => st.interests) intKeys pureStep_interests rfl rows2 k]
    exact (hp.map _).sum_eq
  · show lookupC (sort_dict (runRows initAgg rows1).shortlisted) k =
      lookupC (sort_dict (runRows initAgg rows2).shortlisted) k
    rw [lookupC_sorted_runRows (fun st => st.shortlisted) shortKeys pureStep_shortlisted rfl rows1 k,
      lookupC_sorted_runRows (fun st => st.shortlisted) shortKeys pureStep_shortlisted rfl rows2 k]
    exact (hp.map _).sum_eq

/-- Counterexample to C8 as stated: the two stored Generate rows `rowGenA`
(category `"A"`) and `rowGena` (category `"a"`) carry the same timestamp, so
the store's `ORDER BY ts DESC` scan may return them in either order; the two
orders are permutations of the same event set, yet `api_stats` renders the
tied categories `"A"` and `"a"` in different sequences, so the output does
depend on the order in which the store returns the rows. -/
theorem C8_counterexample :
    [rowGenA, rowGena].Perm [rowGena, rowGenA] ∧
    rowGenA.ts = rowGena.ts ∧
    (api_stats [rowGenA, rowGena]).map Stats.categories = some [("A", 1), ("a", 1)] ∧
    (api_stats [rowGena, rowGenA]).map Stats.categories = some [("a", 1), ("A", 1)] ∧
    api_stats [rowGenA, rowGena] ≠ api_stats [rowGena, rowGenA] :=
  ⟨List.Perm.swap rowGena rowGenA [], rfl, by decide, by decide, by decide⟩

/-- Witness for C8 (amended) on the permuted two-row stores. -/
theorem C8_order_independent_counts_witness :
    statsAa.totalEvents = statsaA.totalEvents ∧
    lookupC statsAa.categories "A" = lookupC statsaA.categories "A" ∧
    lookupC statsAa.categories "a" = lookupC statsaA.categories "a" := by
  have hA := C8_order_independent_counts [rowGenA, rowGena] [rowGena, rowGenA]
    statsAa statsaA "A" (List.Perm.swap rowGena rowGenA []) (by decide) (by decide)
  have ha := C8_order_independent_counts [rowGenA, rowGena] [rowGena, rowGenA]
    statsAa statsaA "a" (List.Perm.swap rowGena rowGenA []) (by decide) (by decide)
  exact ⟨hA.1, hA.2.2.2.1, ha.2.2.2.1⟩

/-!
Helper facts about `orNone` and the interests loop.
-/

theorem orNone_some {s t : String} (h : orNone s = some t) : t ≠ "" ∧ t = s := by
  unfold orNone at h
  by_cases h2 : s = ""
  · rw [if_pos h2] at h
    exact Option.noConfusion h
  · rw [if_neg h2] at h
    have hst : s = t := Option.some.inj h
    subst hst
    exact ⟨h2, rfl⟩

theorem foldl_addInterest_filter (ints : List JVal) (m : CountMap) :
    ints.foldl addInterest m = (ints.filter fun t => tokOf t ≠ "").foldl addInterest m := by
  induction ints generalizing m with
  | nil => rfl
  | cons t ts ih =>
    by_cases h : tokOf t = ""
    · simp [List.filter_cons, h, addInterest, ih]
    · simp [List.filter_cons, h, addInterest, ih]

/-- C1 (amended): in every row built by ingestion, `category`, `gender` and
`shortlistedItem` are normalized with an empty result stored as `null` (an
empty string is never persisted in those three columns); `activityType` and
`grade` are stored as `null` exactly when the payload field is absent or
JSON `null`, and otherwise store the normalized string even when it is
empty. -/
theorem C1_optional_scalar_storage (data : List (String × JVal)) (ts : Int) (et : String) :
    (norm (pyGet data "categorySelected") = "" → (buildRow data ts et).category_selected = none) ∧
    (∀ s, (buildRow data ts et).category_selected = some s →
      s ≠ "" ∧ s = norm (pyGet data "categorySelected")) ∧
    (norm (pyGet data "gender") = "" → (buildRow data ts et).gender = none) ∧
    (∀ s, (buildRow data ts et).gender = some s →
      s ≠ "" ∧ s = norm (pyGet data "gender")) ∧
    (norm (pyGet data "shortlistedCCA") = "" → (buildRow data ts et).shortlisted_cca = none) ∧
    (∀ s, (buildRow data ts et).shortlisted_cca = some s →
      s ≠ "" ∧ s = norm (pyGet data "shortlistedCCA")) ∧
    ((buildRow data ts et).activity_type_selected = none ↔
      pyGet data "activityTypeSelected" = none) ∧
    (∀ v, pyGet data "activityTypeSelected" = some v →
      (buildRow data ts et).activity_type_selected = some (normV v)) ∧
    ((buildRow data ts et).grade = none ↔ pyGet data "grade" = none) ∧
    (∀ v, pyGet data "grade" = some v → (buildRow data ts et).grade = some (normV v)) := by
  refine ⟨?_, ?_, ?_, ?_, ?_, ?_, ?_, ?_, ?_, ?_⟩
  · intro h
    simp [buildRow, orNone, h]
  · intro t ht
    exact orNone_some ht
  · intro h
    simp [buildRow, orNone, h]
  · intro t ht
    exact orNone_some ht
  · intro h
    simp [buildRow, orNone, h]
  · intro t ht
    exact orNone_some ht
  · cases h : pyGet data "activityTypeSelected" <;> simp [buildRow, h]
  · intro v hv
    simp [buildRow, hv]
  · cases h : pyGet data "grade" <;> simp [buildRow, h]
  · intro v hv
    simp [buildRow, hv]

/-- Counterexample to C1 as stated: the accepted payload `bodyBlankGrade`
has `grade = " "`, whose normalization is the empty string, yet the value
stored in the `grade` column of the persisted row is the empty string, not
`null`. -/
theorem C1_counterexample :
    norm (pyGet (bodyFields bodyBlankGrade) "grade") = "" ∧
    (api_events bodyBlankGrade 0 []).1 = .ok 1 ∧
    ((api_events bodyBlankGrade 0 []).2.map Row.grade) = [some ""] := by
  refine ⟨rfl, by decide, by decide⟩

/-- Witness for C1 (amended): an absent `categorySelected` is stored as
`null`, while the present whitespace-only `grade` of the same payload is
stored as the normalized (empty) string. -/
theorem C1_optional_scalar_storage_witness :
    (buildRow (bodyFields bodyBlankGrade) 0 "generate").category_selected = none ∧
    (buildRow (bodyFields bodyBlankGrade) 0 "generate").grade = some (normV (JVal.str " ")) :=
  ⟨(C1_optional_scalar_storage (bodyFields bodyBlankGrade) 0 "generate").1 rfl,
   (C1_optional_scalar_storage (bodyFields bodyBlankGrade) 0
      "generate").2.2.2.2.2.2.2.2.2 (JVal.str " ") rfl⟩

/-- C2 (amended): every payload whose `eventType`, after normalization
(string conversion and whitespace stripping), is neither exactly
`"generate"` nor exactly `"shortlist"` — in particular an absent or empty
`eventType` — is answered with the 400 client error and leaves the store
unchanged. -/
theorem C2_invalid_event_type_rejected (b : Body) (ts : Int) (store : List Row)
    (h1 : norm (pyGet (bodyFields b) "eventType") ≠ "generate")
    (h2 : norm (pyGet (bodyFields b) "eventType") ≠ "shortlist") :
    api_events b ts store =
      (.err 400 false "Invalid or missing eventType (use \x27generate\x27 or \x27shortlist\x27)",
       store) := by
  simp [api_events, h1, h2]

/-- Counterexample to C2 as stated: the payload value `" generate "` is a
string other than `"generate"` and `"shortlist"` (and neither absent nor
empty), yet the submission is accepted and one event is persisted. -/
theorem C2_counterexample :
    " generate " ≠ "generate" ∧
    " generate " ≠ "shortlist" ∧
    (api_events bodyPadded 7 []).1 = .ok 1 ∧
    (api_events bodyPadded 7 []).2.length = 1 := by
  refine ⟨by decide, by decide, by decide, by decide⟩

/-- Witness for C2 (amended) at a payload with an unknown event type. -/
theorem C2_invalid_event_type_rejected_witness :
    norm (pyGet (bodyFields bodyBogus) "eventType") ≠ "generate" ∧
    norm (pyGet (bodyFields bodyBogus) "eventType") ≠ "shortlist" ∧
    api_events bodyBogus 5 [] =
      (.err 400 false "Invalid or missing eventType (use \x27generate\x27 or \x27shortlist\x27)",
       []) :=
  ⟨by decide, by decide,
   C2_invalid_event_type_rejected bodyBogus 5 [] (by decide) (by decide)⟩

/-- C7: payload parsing never fails — a body that does not parse as JSON,
or whose top-level value is not an object, is handled exactly like the
empty object — and the only failure of the ingestion route is the
`eventType` check: it answers an error precisely when the normalized
`eventType` is neither `"generate"` nor `"shortlist"`. -/
theorem C7_malformed_body_degrades :
    (∀ (b : Body) (ts : Int) (store : List Row), (∀ fs, b ≠ Body.val (JVal.obj fs)) →
      api_events b ts store = api_events (Body.val (JVal.obj [])) ts store) ∧
    (∀ (b : Body) (ts : Int) (store : List Row),
      (∃ status okFlag msg, (api_events b ts store).1 = .err status okFlag msg) ↔
        (norm (pyGet (bodyFields b) "eventType") ≠ "generate" ∧
         norm (pyGet (bodyFields b) "eventType") ≠ "shortlist")) := by
  constructor
  · intro b ts store hb
    have hf : bodyFields b = [] := by
      cases b with
      | parseError => rfl
      | val v =>
        cases v with
        | obj fs => exact absurd rfl (hb fs)
        | null => rfl
        | bool x => rfl
        | num x => rfl
        | str x => rfl
        | arr x => rfl
    simp [api_events, hf, bodyFields]
  · intro b ts store
    by_cases hc : norm (pyGet (bodyFields b) "eventType") = "generate" ∨
        norm (pyGet (bodyFields b) "eventType") = "shortlist"
    · constructor
      · rintro ⟨status, okFlag, msg, hmsg⟩
        exfalso
        simp only [api_events] at hmsg
        rw [if_pos hc] at hmsg
        exact SubmitResult.noConfusion hmsg
      · rintro ⟨hn1, hn2⟩
        rcases hc with h | h
        · exact absurd h hn1
        · exact absurd h hn2
    · rw [not_or] at hc
      constructor
      · intro _
        exact hc
      · intro _
        refine ⟨400, false,
          "Invalid or missing eventType (use \x27generate\x27 or \x27shortlist\x27)", ?_⟩
        simp only [api_events]
        rw [if_neg (by rw [not_or]; exact hc)]

/-- Witness for C7: the unparseable body behaves like the empty object, and
a non-object body (a bare number) is rejected only by the `eventType`
check. -/
theorem C7_malformed_body_degrades_witness :
    api_events Body.parseError 3 [] = api_events (Body.val (JVal.obj [])) 3 [] ∧
    (∃ status okFlag msg,
      (api_events (Body.val (JVal.num 3)) 0 []).1 = .err status okFlag msg) :=
  ⟨C7_malformed_body_degrades.1 Body.parseError 3 [] (fun _ h => Body.noConfusion h),
   (C7_malformed_body_degrades.2 (Body.val (JVal.num 3)) 0 []).mpr ⟨by decide, by decide⟩⟩

set_option maxRecDepth 8000 in
/-- C5: every built row stores at most 200 interests and at most 50 shown
items (a 250-interest payload persists exactly 200), and the aggregation
loop lower-cases each interest token and never counts one that is empty
after normalization: dropping the empty-token entries leaves the interests
fold unchanged. -/
theorem C5_list_caps_and_interest_filter :
    (∀ (data : List (String × JVal)) (ts : Int) (et : String),
      storedLen (buildRow data ts et).interests_json ≤ 200 ∧
      storedLen (buildRow data ts et).shown_ccas_json ≤ 50) ∧
    storedLen (buildRow (bodyFields body250) 0 "generate").interests_json = 200 ∧
    (∀ (ints : List JVal) (m : CountMap),
      ints.foldl addInterest m = (ints.filter fun t => tokOf t ≠ "").foldl addInterest m) := by
  refine ⟨?_, by decide, foldl_addInterest_filter⟩
  intro data ts et
  constructor
  · show (((safe_list (pyGet data "interests")).take 200).length) ≤ 200
    exact List.length_take_le 200 _
  · show (((safe_list (pyGet data "shownCCAs")).take 50).length) ≤ 50
    exact List.length_take_le 50 _

/-- C3 (amended): aggregating a Generate event increments the activityType
distribution under the event's `activityType` value, or under the literal
key `"(n/a)"` when that value is absent or empty, and the gender
distribution under its `gender` value, or under `"Any"` when that value is
absent or empty; submitting exactly
`\x7beventType:"generate", categorySelected:"Sports", gender:"F"\x7d` into an
empty store yields categories `[("Sports", 1)]`, genders `[("F", 1)]` and
activityTypes `[("(n/a)", 1)]`. -/
theorem C3_generate_fallback_keys :
    (∀ (st : AggState) (r : Row) (st2 : AggState),
      stepRow st r = some st2 → r.event_type = "generate" →
        st2.activity_types =
          count_map_add st.activity_types (some (pyOr r.activity_type_selected "(n/a)")) ∧
        st2.genders = count_map_add st.genders (some (pyOr r.gender "Any"))) ∧
    (api_stats (api_events bodySports 0 []).2).map Stats.categories = some [("Sports", 1)] ∧
    (api_stats (api_events bodySports 0 []).2).map Stats.genders = some [("F", 1)] ∧
    (api_stats (api_events bodySports 0 []).2).map Stats.activityTypes =
      some [("(n/a)", 1)] := by
  refine ⟨?_, by decide, by decide, by decide⟩
  intro st r st2 hstep hg
  obtain ⟨-, h2⟩ := stepRow_some_iff.mp hstep
  subst h2
  constructor
  · rw [pureStep_activity_types]
    simp [actKeys, hg, bumpList, count_map_add]
  · rw [pureStep_genders]
    simp [genderKeys, hg, bumpList, count_map_add]

/-- Counterexample to C3 as stated: submitting a Generate payload whose
`activityTypeSelected` is the whitespace-only string `" "` stores the row
with the present (empty-string) activityType value, yet aggregation counts
it under the literal `"(n/a)"` — not under the stored value (nor under the
`"(blank)"` key that `count_map_add` gives an empty key) — so the `"(n/a)"`
fallback is not restricted to absent values. -/
theorem C3_counterexample :
    ((api_events bodyBlankAct 0 []).2.map Row.activity_type_selected) = [some ""] ∧
    (api_stats (api_events bodyBlankAct 0 []).2).map Stats.activityTypes =
      some [("(n/a)", 1)] := by
  refine ⟨by decide, by decide⟩

/-- Witness for C3 (amended) at the one-row store `[rowGenA]`. -/
theorem C3_generate_fallback_keys_witness :
    stRowGenA.activity_types =
      count_map_add initAgg.activity_types (some (pyOr rowGenA.activity_type_selected "(n/a)")) ∧
    stRowGenA.genders = count_map_add initAgg.genders (some (pyOr rowGenA.gender "Any")) :=
  C3_generate_fallback_keys.1 initAgg rowGenA stRowGenA (by decide) (by decide)

/-- C6: the clear-all operation unconditionally empties the store — no
filtering, no partial delete — and reports the full row count as deleted;
after submitting a Shortlist event for `"Chess Club"` and then clearing,
the next stats call reports `totalEvents = 0` and every distribution
empty. -/
theorem C6_clear_all :
    (∀ store : List Row,
      api_clear_stats store = ({ ok := true, status := "cleared", deleted := store.length }, [])) ∧
    (api_events bodyShortlist 0 []).2.length = 1 ∧
    (api_clear_stats (api_events bodyShortlist 0 []).2).1.deleted = 1 ∧
    api_stats (api_clear_stats (api_events bodyShortlist 0 []).2).2 =
      some { totalEvents := 0, generateEvents := 0, shortlistEvents := 0,
             categories := [], activityTypes := [], grades := [], genders := [],
             interests := [], shortlisted := [] } := by
  exact ⟨fun store => rfl, by decide, by decide, by decide⟩

/-- C10 (amended): aggregation is total over every stored row whose
`interests_json` is SQL `NULL`, unparseable text, or text decoding to an
iterable JSON value — in particular over every row ingestion can write —
with unparseable text treated as the empty interests list; a row with an
unrecognized event type is counted in `totalEvents` and changes nothing
else; a Shortlist row with a `null` or empty `shortlistedItem` only bumps
`shortlistEvents`. (A row whose `interests_json` decodes to a number,
boolean or `null` makes the stats call fail; see the counterexample.) -/
theorem C10_total_over_stored_rows :
    (∀ rows : List Row, (∀ r ∈ rows, rowOk r) → (api_stats rows).isSome = true) ∧
    (∀ s : String, loadInterests (.malformed s) = some []) ∧
    loadInterests .sqlNull = some [] ∧
    (∀ (st : AggState) (r : Row),
      r.event_type ≠ "generate" → r.event_type ≠ "shortlist" → stepRow st r = some st) ∧
    (∀ (rows : List Row) (s : Stats), api_stats rows = some s → s.totalEvents = rows.length) ∧
    (∀ (st : AggState) (r : Row), r.event_type = "shortlist" →
      (r.shortlisted_cca = none ∨ r.shortlisted_cca = some "") →
      stepRow st r = some { st with shortlist_events := st.shortlist_events + 1 }) := by
  refine ⟨?_, fun s => rfl, rfl, ?_, ?_, ?_⟩
  · intro rows h
    rw [api_stats_some_iff.mpr ⟨h, rfl⟩]
    rfl
  · intro st r h1 h2
    unfold stepRow
    rw [if_neg h1, if_neg h2]
  · intro rows s h
    obtain ⟨-, hs⟩ := api_stats_some_iff.mp h
    subst hs
    rfl
  · intro st r hst hsc
    unfold stepRow
    rw [if_neg (by simp [hst]), if_pos hst]
    rcases hsc with h | h <;> simp [h]

/-- Counterexample to C10 as stated: the stored row `rowNumInts`, whose
`interests_json` column holds the JSON text `"5"`, parses successfully but
is not iterable, so the aggregation loop raises and the stats call fails. -/
theorem C10_counterexample : api_stats [rowNumInts] = none := by decide

/-- Witness for C10 (amended) at concrete rows of each handled shape. -/
theorem C10_total_over_stored_rows_witness :
    (api_stats [rowGenA]).isSome = true ∧
    stepRow initAgg rowUnknown = some initAgg ∧
    stepRow initAgg rowShortNone =
      some { initAgg with shortlist_events := initAgg.shortlist_events + 1 } := by
  refine ⟨C10_total_over_stored_rows.1 [rowGenA] (by decide), ?_, ?_⟩
  · exact C10_total_over_stored_rows.2.2.2.1 initAgg rowUnknown (by decide) (by decide)
  · exact C10_total_over_stored_rows.2.2.2.2.2 initAgg rowShortNone rfl (Or.inl rfl)

end CCAMatcher
